import Mathlib

set_option maxRecDepth 8192

/-!
Verification development for the Agentic_travel_assistant repository.

The repository implements a chat-driven travel concierge:
`travel_agent.py` defines five tool functions (flight search/booking,
hotel search/booking, Google-Calendar event creation) and builds an
agent executor around them; `app.py` is the chat front end that keeps
the session transcript and invokes the executor once per user turn.

This file gives a shallow embedding of the data model and of the
operations those files define, and proves the specification claims
about them.  Machine-level details that the Python code delegates to
libraries (ISO date parsing, the Google OAuth client, the external
agent loop) are embedded as explicit Lean functions or environments,
each documented at its definition site.
-/

namespace TravelAssistant

/-! ### Calendar dates

`travel_agent.py` works with `datetime.date` / `datetime.datetime`
values only through: `datetime.date.today() + timedelta(days=28)`,
`datetime.datetime.fromisoformat`, and `strftime("%Y-%m-%d")`.
We embed a Gregorian calendar date and those three operations. -/

structure Date where
  year : Nat
  month : Nat
  day : Nat
deriving DecidableEq, Repr

def isLeapYear (y : Nat) : Bool :=
  y % 4 == 0 && (y % 100 != 0 || y % 400 == 0)

def daysInMonth (y m : Nat) : Nat :=
  if m == 2 then (if isLeapYear y then 29 else 28)
  else if m == 4 || m == 6 || m == 9 || m == 11 then 30
  else 31

/-- Successor day in the Gregorian calendar (rolls over months and years). -/
def nextDay (d : Date) : Date :=
  if d.day < daysInMonth d.year d.month then ⟨d.year, d.month, d.day + 1⟩
  else if d.month < 12 then ⟨d.year, d.month + 1, 1⟩
  else ⟨d.year + 1, 1, 1⟩

/-- Models Python date + timedelta(days=n). -/
def addDays (d : Date) : Nat → Date
  | 0 => d
  | n + 1 => nextDay (addDays d n)

def digitVal (c : Char) : Nat := c.toNat - '0'.toNat

/-- Decimal rendering padded to width 2, as strftime produces for month and day. -/
def pad2 (n : Nat) : String :=
  if n < 10 then "0" ++ toString n else toString n

/-- Decimal rendering padded to width 4, as strftime produces for the year. -/
def pad4 (n : Nat) : String :=
  if n < 10 then "000" ++ toString n
  else if n < 100 then "00" ++ toString n
  else if n < 1000 then "0" ++ toString n
  else toString n

/-- Models strftime("%Y-%m-%d") on a date. -/
def fmtDate (d : Date) : String :=
  pad4 d.year ++ "-" ++ pad2 d.month ++ "-" ++ pad2 d.day

/-- Models datetime.datetime.fromisoformat restricted to date-only input:
exactly ten characters YYYY-MM-DD with a calendar-valid year, month and
day (Python raises ValueError otherwise, which the callers in
travel_agent.py catch).  Inputs carrying a time component are treated
as unparsed here; every input the specification exercises is date-only. -/
def parseIsoDate : List Char → Option Date
  | [y1, y2, y3, y4, '-', m1, m2, '-', d1, d2] =>
    if y1.isDigit && y2.isDigit && y3.isDigit && y4.isDigit &&
       m1.isDigit && m2.isDigit && d1.isDigit && d2.isDigit then
      let y := ((digitVal y1 * 10 + digitVal y2) * 10 + digitVal y3) * 10 + digitVal y4
      let m := digitVal m1 * 10 + digitVal m2
      let d := digitVal d1 * 10 + digitVal d2
      if 1 ≤ y && 1 ≤ m && m ≤ 12 && 1 ≤ d && d ≤ daysInMonth y m then
        some ⟨y, m, d⟩
      else none
    else none
  | _ => none

/-- Models Python str.split(" to "): left-to-right, non-overlapping cuts
at every occurrence of the four-character separator. -/
def splitOnTo : List Char → List (List Char)
  | [] => [[]]
  | ' ' :: 't' :: 'o' :: ' ' :: rest => [] :: splitOnTo rest
  | c :: rest =>
    match splitOnTo rest with
    | [] => [[c]]
    | g :: gs => (c :: g) :: gs

/-- The date logic shared by search_flights (travel_agent.py lines 35-42):
split travel_dates on " to ", which must yield exactly two parts
(tuple unpacking raises ValueError otherwise, caught by the except),
then parse the first part with fromisoformat (ValueError also caught).
Returns the parsed start date, or none when the except branch runs. -/
def parseStartDate (td : List Char) : Option Date :=
  match splitOnTo td with
  | [s, _e] => parseIsoDate s
  | _ => none

/-! ### The mock travel tools (travel_agent.py lines 25-92) -/

structure FlightOffer where
  id : String
  departure : String
  arrival : String
  price : Nat
  departure_time : String
deriving DecidableEq, Repr

structure HotelOffer where
  id : String
  name : String
  price_per_night : Nat
deriving DecidableEq, Repr

structure BookingConfirmation where
  status : String
  confirmation_id : String
deriving DecidableEq, Repr

/-- Embeds search_flights (travel_agent.py lines 25-50).  `today` stands
for datetime.date.today().  Prices 450.00 and 550.00 are the exact
integral float literals of the source, embedded as naturals.
The default start date is today + 28 days; a provided travel_dates
string overrides it only when the split-and-parse succeeds (in Python,
an empty string is falsy and skips the parse, and a ValueError from the
parse is caught, both falling back to the default). -/
def search_flights (today : Date) (destination : String)
    (travel_dates : Option String) : List FlightOffer :=
  let defaultStart := fmtDate (addDays today 28)
  let start_date :=
    match travel_dates with
    | none => defaultStart
    | some td =>
      if td.data = [] then defaultStart
      else
        match parseStartDate td.data with
        | some d => fmtDate d
        | none => defaultStart
  [⟨"FL123", "New York (JFK)", destination, 450, start_date ++ "T08:00:00"⟩,
   ⟨"FL456", "New York (JFK)", destination, 550, start_date ++ "T11:00:00"⟩]

/-- Embeds book_flight (travel_agent.py lines 52-59). -/
def book_flight (flight_id : String) : BookingConfirmation :=
  ⟨"success", "CONF-" ++ flight_id ++ "-BKD"⟩

/-- Embeds Google_Hotels (travel_agent.py lines 61-84), the hotel-search
tool.  Its date-handling block only prints; the returned offers are a
fixed two-element list independent of both arguments. -/
def Google_Hotels (destination : String)
    (travel_dates : Option String) : List HotelOffer :=
  [⟨"HOT789", "Grand Plaza Hotel", 250⟩,
   ⟨"HOT101", "City Center Inn", 180⟩]

/-- Embeds book_hotel (travel_agent.py lines 85-92). -/
def book_hotel (hotel_id : String) : BookingConfirmation :=
  ⟨"success", "CONF-" ++ hotel_id ++ "-BKD"⟩

/-! ### The tool registry (travel_agent.py lines 138-139)

The list `tools = [search_flights, book_flight, Google_Hotels,
book_hotel, create_calendar_event]` is handed to the agent framework,
which exposes each function under its Python name with the argument
schema read off its signature.  We embed the registry as metadata:
tool name plus named arguments with a required flag (Optional[str] =
None parameters are optional). -/

structure ArgSpec where
  argName : String
  required : Bool
deriving DecidableEq, Repr

structure ToolSpec where
  name : String
  args : List ArgSpec
deriving DecidableEq, Repr

def tools : List ToolSpec :=
  [⟨"search_flights", [⟨"destination", true⟩, ⟨"travel_dates", false⟩]⟩,
   ⟨"book_flight", [⟨"flight_id", true⟩]⟩,
   ⟨"Google_Hotels", [⟨"destination", true⟩, ⟨"travel_dates", false⟩]⟩,
   ⟨"book_hotel", [⟨"hotel_id", true⟩]⟩,
   ⟨"create_calendar_event",
    [⟨"title", true⟩, ⟨"start_time", true⟩, ⟨"end_time", true⟩,
     ⟨"description", true⟩]⟩]

/-! ### The calendar side-effect adapter (travel_agent.py lines 94-131)

create_calendar_event talks to the outside world five times: it loads
token.json if present, may refresh the credential over the network, may
run an interactive consent flow, writes token.json back, and calls the
Calendar insert API.  We embed each external interaction as a field of
an environment record giving its outcome; an `Except.error` outcome
stands for the Python call raising an exception.  The function result
records the returned/raised value together with how many refresh calls,
consent flows and token.json writes happened, and which credential was
written. -/

structure Cred where
  valid : Bool
  expired : Bool
  hasRefreshToken : Bool
deriving DecidableEq, Repr

deriving instance DecidableEq for Except

structure CalendarEnv where
  tokenFileExists : Bool
  loadResult : Except String Cred
  refreshResult : Except String Cred
  consentResult : Except String Cred
  insertResult : Except String String
deriving DecidableEq, Repr

structure CalOutcome where
  outcome : Except String String
  refreshCalls : Nat
  consentCalls : Nat
  tokenWrites : Nat
  written : Option Cred
deriving DecidableEq, Repr

/-- The body of the Python try/except block (lines 119-131): the insert
API call either yields an event id, returned as a success string, or
raises, in which case the except clause converts the exception into an
error string that is still a normal return value. -/
def insertPhase (env : CalendarEnv) (r c w : Nat) (wr : Option Cred) : CalOutcome :=
  match env.insertResult with
  | Except.ok eid => ⟨Except.ok ("Successfully created event with ID: " ++ eid), r, c, w, wr⟩
  | Except.error e => ⟨Except.ok ("Error creating event: " ++ e), r, c, w, wr⟩

/-- The credential phase of create_calendar_event (travel_agent.py
lines 107-117), which is NOT inside the try block.  It loads token.json
if present; when the loaded credential is missing or not valid it
refreshes (if expired with a refresh token) or runs the interactive
consent flow, and then writes token.json.  An exception anywhere here
propagates out of the whole function: such a path returns
`Except.error` carrying the aborted CalOutcome (the counts accumulated
before the raise).  A completed phase returns the counts
(refresh calls, consent flows, token.json writes) and the credential
written, if any. -/
def credPhase (env : CalendarEnv) :
    Except CalOutcome (Nat × Nat × Nat × Option Cred) :=
  match env.tokenFileExists, env.loadResult with
  | true, Except.error e =>
    -- Credentials.from_authorized_user_file raised (malformed token.json)
    Except.error ⟨Except.error e, 0, 0, 0, none⟩
  | true, Except.ok c =>
    if c.valid then
      -- stored credential valid: no refresh, no consent, no write
      Except.ok (0, 0, 0, none)
    else if c.expired && c.hasRefreshToken then
      match env.refreshResult with
      | Except.error e => Except.error ⟨Except.error e, 1, 0, 0, none⟩
      | Except.ok c2 => Except.ok (1, 0, 1, some c2)
    else
      match env.consentResult with
      | Except.error e => Except.error ⟨Except.error e, 0, 1, 0, none⟩
      | Except.ok c2 => Except.ok (0, 1, 1, some c2)
  | false, _ =>
    -- token.json absent: creds is None, so the consent flow runs
    match env.consentResult with
    | Except.error e => Except.error ⟨Except.error e, 0, 1, 0, none⟩
    | Except.ok c2 => Except.ok (0, 1, 1, some c2)

/-- Embeds create_calendar_event (travel_agent.py lines 94-131) over a
CalendarEnv: the unguarded credential phase (lines 107-117) followed,
when it did not raise, by the try/except-guarded insert phase
(lines 119-131). -/
def create_calendar_event (env : CalendarEnv) : CalOutcome :=
  match credPhase env with
  | Except.error aborted => aborted
  | Except.ok (r, c, w, wr) => insertPhase env r c w wr

/-- The credential phase (lines 107-117) completes without raising. -/
def credPhaseOk (env : CalendarEnv) : Bool :=
  match credPhase env with
  | Except.ok _ => true
  | Except.error _ => false

/-! ### The chat front end (app.py)

app.py keeps the transcript in st.session_state.messages, a list built
only from HumanMessage and AIMessage values (the underlying message
taxonomy also has tool-call and tool-result messages, which the
transcript never receives).  One turn appends the user prompt, invokes
the executor with input = prompt and chat_history = messages[:-1], and
appends the answer. -/

inductive ChatMessage where
  | human (content : String)
  | ai (content : String)
  | toolCall (toolName : String) (args : String)
  | toolResult (content : String)
deriving DecidableEq, Repr

/-- The transcript contains only human and assistant messages, never
turn-scoped scratch entries. -/
def transcriptOnly (l : List ChatMessage) : Bool :=
  l.all fun m =>
    match m with
    | ChatMessage.human _ => true
    | ChatMessage.ai _ => true
    | ChatMessage.toolCall _ _ => false
    | ChatMessage.toolResult _ => false

/-- The greeting the session starts with (app.py lines 18-21). -/
def initialMessages : List ChatMessage :=
  [ChatMessage.ai "How can I help you plan your next trip?"]

/-- The payload of agent_executor.invoke (app.py lines 41-44). -/
structure InvokePayload where
  input : String
  chat_history : List ChatMessage
deriving DecidableEq, Repr

/-- Models app.py lines 29-44: the prompt is appended to the transcript
and the executor is invoked with the prompt as input and all messages
except the last as chat_history. -/
def turnInvoke (msgs : List ChatMessage) (prompt : String) : InvokePayload :=
  ⟨prompt, (msgs ++ [ChatMessage.human prompt]).dropLast⟩

/-- Models one full turn of app.py lines 29-50: append the user prompt,
obtain the final answer text from the executor, append it.  Nothing
else is ever appended to the transcript. -/
def runTurn (msgs : List ChatMessage) (prompt answer : String) : List ChatMessage :=
  (msgs ++ [ChatMessage.human prompt]) ++ [ChatMessage.ai answer]

/-! ### The planning loop

The loop itself is supplied by the external agent-executor framework;
travel_agent.py only constructs it (line 172) with its default
configuration, whose iteration cap is 15 and whose on-cap answer is the
fixed degraded string below. -/

inductive OracleStep where
  | finalAnswer (text : String)
  | toolCall (toolName : String) (args : List (String × String))

structure ScratchEntry where
  callName : String
  callArgs : List (String × String)
  result : String

/-- The degraded final answer produced when the iteration cap is hit. -/
def stoppedAnswer : String := "Agent stopped due to iteration limit or time limit."

/-- The iteration cap of the executor constructed in travel_agent.py. -/
def maxIterations : Nat := 15

/-- Modelled from the spec: the Planning Loop of spec section 4.3 is
implemented by the external agent-executor framework, not by code under
src/ (travel_agent.py line 172 only constructs it).  Following the
spec, the loop asks the oracle, given the turn-local scratch context,
for either a final answer, which ends the turn, or a tool call, which
is executed and appended to the scratch context before asking again;
the remaining-iteration count bounds the number of rounds, and
exhausting it yields the degraded answer. -/
def planningLoopAux (oracle : List ScratchEntry → OracleStep)
    (execTool : String → List (String × String) → String) :
    Nat → List ScratchEntry → String
  | 0, _ => stoppedAnswer
  | fuel + 1, scratch =>
    match oracle scratch with
    | OracleStep.finalAnswer t => t
    | OracleStep.toolCall n a =>
      planningLoopAux oracle execTool fuel (scratch ++ [⟨n, a, execTool n a⟩])

/-- Modelled from the spec: one run of the Planning Loop for a turn,
starting from an empty scratch context with the full iteration budget. -/
def planningLoop (oracle : List ScratchEntry → OracleStep)
    (execTool : String → List (String × String) → String) : String :=
  planningLoopAux oracle execTool maxIterations []

/-! ## Helper lemmas -/

lemma insertPhase_counts (env : CalendarEnv) (r c w : Nat) (wr : Option Cred) :
    (insertPhase env r c w wr).refreshCalls = r ∧
    (insertPhase env r c w wr).consentCalls = c ∧
    (insertPhase env r c w wr).tokenWrites = w ∧
    (insertPhase env r c w wr).written = wr := by
  cases h : env.insertResult <;> simp [insertPhase, h]

lemma insertPhase_outcome_ok (env : CalendarEnv) (r c w : Nat) (wr : Option Cred) :
    ∃ s, (insertPhase env r c w wr).outcome = Except.ok s := by
  cases h : env.insertResult with
  | ok eid =>
    exact ⟨"Successfully created event with ID: " ++ eid, by simp [insertPhase, h]⟩
  | error e =>
    exact ⟨"Error creating event: " ++ e, by simp [insertPhase, h]⟩

lemma insertPhase_outcome_of_error (env : CalendarEnv) (r c w : Nat)
    (wr : Option Cred) (e : String) (h : env.insertResult = Except.error e) :
    (insertPhase env r c w wr).outcome =
      Except.ok ("Error creating event: " ++ e) := by
  simp [insertPhase, h]

lemma create_eq_insertPhase_of_credPhaseOk (env : CalendarEnv)
    (h : credPhaseOk env = true) :
    ∃ r c w wr, create_calendar_event env = insertPhase env r c w wr := by
  unfold credPhaseOk at h
  unfold create_calendar_event
  cases hc : credPhase env with
  | error aborted => rw [hc] at h; simp at h
  | ok q =>
    obtain ⟨r, c, w, wr⟩ := q
    exact ⟨r, c, w, wr, rfl⟩

lemma credPhase_of_valid (env : CalendarEnv) (c : Cred)
    (hT : env.tokenFileExists = true) (hL : env.loadResult = Except.ok c)
    (hv : c.valid = true) : credPhase env = Except.ok (0, 0, 0, none) := by
  simp [credPhase, hT, hL, hv]

lemma credPhase_of_refresh (env : CalendarEnv) (c c2 : Cred)
    (hT : env.tokenFileExists = true) (hL : env.loadResult = Except.ok c)
    (hv : c.valid = false) (hex : c.expired = true)
    (hrt : c.hasRefreshToken = true)
    (hrr : env.refreshResult = Except.ok c2) :
    credPhase env = Except.ok (1, 0, 1, some c2) := by
  simp [credPhase, hT, hL, hv, hex, hrt, hrr]

/-! ## The claims -/

/-- C3: for every input ID string x, book_flight x and book_hotel x
both return status "success" with confirmation ID "CONF-" ++ x ++
"-BKD", a deterministic function of the input; the call always
succeeds. -/
theorem claim_C3 (x : String) :
    book_flight x = ⟨"success", "CONF-" ++ x ++ "-BKD"⟩ ∧
    book_hotel x = ⟨"success", "CONF-" ++ x ++ "-BKD"⟩ :=
  ⟨rfl, rfl⟩

/-- C3 witness at a concrete ID. -/
theorem claim_C3_witness :
    book_flight "FL123" = ⟨"success", "CONF-FL123-BKD"⟩ ∧
    book_hotel "HOT789" = ⟨"success", "CONF-HOT789-BKD"⟩ := by
  have h := claim_C3 "FL123"
  have h2 := claim_C3 "HOT789"
  exact ⟨h.1.trans (by decide), h2.2.trans (by decide)⟩

/-- C2: for every travel_dates string whose split-and-parse fails
(malformed input), search_flights still returns the well-formed
two-offer list, with the departure times built from the default start
date 28 days after the current date, and the hotel-search tool still
returns its well-formed two-offer list; moreover for every
travel_dates value whatsoever both tools return a two-element offer
list (no exception escapes). -/
theorem claim_C2 (today : Date) (destination td : String)
    (h : parseStartDate td.data = none) :
    search_flights today destination (some td) =
      [⟨"FL123", "New York (JFK)", destination, 450,
        fmtDate (addDays today 28) ++ "T08:00:00"⟩,
       ⟨"FL456", "New York (JFK)", destination, 550,
        fmtDate (addDays today 28) ++ "T11:00:00"⟩] ∧
    Google_Hotels destination (some td) =
      [⟨"HOT789", "Grand Plaza Hotel", 250⟩,
       ⟨"HOT101", "City Center Inn", 180⟩] ∧
    ∀ td2 : Option String,
      (search_flights today destination td2).length = 2 ∧
      (Google_Hotels destination td2).length = 2 := by
  refine ⟨?_, rfl, fun td2 => ⟨rfl, rfl⟩⟩
  unfold search_flights
  by_cases he : td.data = []
  · simp [he]
  · simp [he, h]

/-- C2 witness: a malformed travel_dates string at a concrete current
date falls back to the default start date (2025-01-15 plus 28 days is
2025-02-12). -/
theorem claim_C2_witness :
    parseStartDate ("sometime next month").data = none ∧
    search_flights ⟨2025, 1, 15⟩ "Paris" (some "sometime next month") =
      [⟨"FL123", "New York (JFK)", "Paris", 450, "2025-02-12T08:00:00"⟩,
       ⟨"FL456", "New York (JFK)", "Paris", 550, "2025-02-12T11:00:00"⟩] := by
  constructor
  · decide
  · have h := (claim_C2 ⟨2025, 1, 15⟩ "Paris" "sometime next month" (by decide)).1
    exact h.trans (by decide)

/-- C4: for every destination and every travel_dates string that splits
on " to " into two parts whose first part parses as an ISO date d,
search_flights returns exactly the two offers priced 450 and 550, both
arriving at the destination, with departure times built from d. -/
theorem claim_C4 (today : Date) (destination td : String) (d : Date)
    (h : parseStartDate td.data = some d) :
    search_flights today destination (some td) =
      [⟨"FL123", "New York (JFK)", destination, 450,
        fmtDate d ++ "T08:00:00"⟩,
       ⟨"FL456", "New York (JFK)", destination, 550,
        fmtDate d ++ "T11:00:00"⟩] := by
  have he : td.data ≠ [] := by
    intro he
    rw [he] at h
    rw [show parseStartDate [] = none from rfl] at h
    exact Option.noConfusion h
  unfold search_flights
  simp [he, h]

/-- C4 witness: the end-to-end scenario input from the specification. -/
theorem claim_C4_witness :
    parseStartDate ("2025-06-01 to 2025-06-10").data = some ⟨2025, 6, 1⟩ ∧
    search_flights ⟨2025, 1, 1⟩ "Paris" (some "2025-06-01 to 2025-06-10") =
      [⟨"FL123", "New York (JFK)", "Paris", 450, "2025-06-01T08:00:00"⟩,
       ⟨"FL456", "New York (JFK)", "Paris", 550, "2025-06-01T11:00:00"⟩] := by
  constructor
  · decide
  · have h := claim_C4 ⟨2025, 1, 1⟩ "Paris" "2025-06-01 to 2025-06-10"
      ⟨2025, 6, 1⟩ (by decide)
    exact h.trans (by decide)

/-- C5 as stated is false: the registry does expose exactly five named
actions, but none of them is named search_hotels — the hotel-search
tool is registered under the name Google_Hotels. -/
theorem claim_C5_counterexample :
    tools.map ToolSpec.name =
      ["search_flights", "book_flight", "Google_Hotels", "book_hotel",
       "create_calendar_event"] ∧
    "search_hotels" ∉ tools.map ToolSpec.name := by
  exact ⟨rfl, by decide⟩

/-- C5 amended: the Tool Registry exposes a fixed catalogue of exactly
five named actions, and the hotel-search action is named Google_Hotels,
taking a required destination string and an optional travel_dates
string and returning the fixed offer list with fields id, name and
price_per_night. -/
theorem claim_C5_amended :
    tools.length = 5 ∧
    (⟨"Google_Hotels",
      [⟨"destination", true⟩, ⟨"travel_dates", false⟩]⟩ : ToolSpec) ∈ tools ∧
    ∀ (destination : String) (travel_dates : Option String),
      Google_Hotels destination travel_dates =
        [⟨"HOT789", "Grand Plaza Hotel", 250⟩,
         ⟨"HOT101", "City Center Inn", 180⟩] :=
  ⟨rfl, by decide, fun _ _ => rfl⟩

/-- C6: on every turn the executor is invoked with the new prompt as
its input and, as history, all messages of the transcript except the
most recent one — which is exactly the transcript as it stood before
the prompt was appended, so the current-turn input occurs one time
fewer in the history view than in the full transcript (its own
occurrence is never duplicated into the view). -/
theorem claim_C6 (msgs : List ChatMessage) (prompt : String) :
    (turnInvoke msgs prompt).input = prompt ∧
    (turnInvoke msgs prompt).chat_history =
      (msgs ++ [ChatMessage.human prompt]).dropLast ∧
    (turnInvoke msgs prompt).chat_history = msgs ∧
    List.count (ChatMessage.human prompt)
        ((turnInvoke msgs prompt).chat_history) + 1 =
      List.count (ChatMessage.human prompt)
        (msgs ++ [ChatMessage.human prompt]) := by
  refine ⟨rfl, rfl, ?_, ?_⟩
  · simp [turnInvoke]
  · simp [turnInvoke]

/-- C7: one turn appends exactly the user prompt and the final answer
to the transcript, so a transcript that contains no tool-call or
tool-result entries still contains none after the turn: scratch
context never reaches the visible history of later turns. -/
theorem claim_C7 (msgs : List ChatMessage) (prompt answer : String) :
    runTurn msgs prompt answer =
      msgs ++ [ChatMessage.human prompt, ChatMessage.ai answer] ∧
    (transcriptOnly msgs = true →
      transcriptOnly (runTurn msgs prompt answer) = true) := by
  constructor
  · simp [runTurn]
  · intro h
    simp only [transcriptOnly, List.all_eq_true] at h ⊢
    intro m hm
    simp only [runTurn, List.append_assoc, List.mem_append, List.mem_singleton] at hm
    rcases hm with hm | hm | hm
    · exact h m hm
    · subst hm; rfl
    · subst hm; rfl

/-- C7 witness: a concrete turn starting from the initial transcript. -/
theorem claim_C7_witness :
    runTurn initialMessages "Find flights to Paris" "Here are two options." =
      initialMessages ++
        [ChatMessage.human "Find flights to Paris",
         ChatMessage.ai "Here are two options."] ∧
    transcriptOnly
      (runTurn initialMessages "Find flights to Paris" "Here are two options.") =
      true :=
  ⟨(claim_C7 initialMessages "Find flights to Paris" "Here are two options.").1,
   (claim_C7 initialMessages "Find flights to Paris" "Here are two options.").2
     (by decide)⟩

lemma planningLoopAux_terminates (oracle : List ScratchEntry → OracleStep)
    (execTool : String → List (String × String) → String) :
    ∀ (fuel : Nat) (scratch : List ScratchEntry),
      (∃ sc, oracle sc =
          OracleStep.finalAnswer (planningLoopAux oracle execTool fuel scratch)) ∨
      planningLoopAux oracle execTool fuel scratch = stoppedAnswer
  | 0, _ => Or.inr rfl
  | fuel + 1, scratch => by
    cases h : oracle scratch with
    | finalAnswer t =>
      refine Or.inl ⟨scratch, ?_⟩
      simp only [planningLoopAux, h]
    | toolCall n a =>
      have ih := planningLoopAux_terminates oracle execTool fuel
        (scratch ++ [⟨n, a, execTool n a⟩])
      simpa only [planningLoopAux, h] using ih

/-- C9: for every oracle behaviour and every tool semantics, the
planning loop terminates with a value that is either a final answer the
oracle emitted, or — once the iteration cap (15, inside the 10 to 25
band the specification names) is exhausted — the fixed degraded
unable-to-complete answer.  It can never loop forever, since the
remaining-iteration budget strictly decreases. -/
theorem claim_C9 (oracle : List ScratchEntry → OracleStep)
    (execTool : String → List (String × String) → String) :
    (10 ≤ maxIterations ∧ maxIterations ≤ 25) ∧
    ((∃ scratch, oracle scratch =
        OracleStep.finalAnswer (planningLoop oracle execTool)) ∨
      planningLoop oracle execTool = stoppedAnswer) :=
  ⟨⟨by decide, by decide⟩, planningLoopAux_terminates oracle execTool maxIterations []⟩

/-- C1 as stated is false in the code: with token.json present, a
stored expired credential holding a refresh token, and a refresh call
that fails (for example an authentication rejection), the exception
propagates out of create_calendar_event instead of being caught and
returned as an error string, because the credential-handling block is
outside the try/except. -/
theorem claim_C1_counterexample :
    (create_calendar_event
        ⟨true, Except.ok ⟨false, true, true⟩,
         Except.error "invalid_grant: token revoked",
         Except.ok ⟨true, false, false⟩,
         Except.ok "evt1"⟩).outcome =
      Except.error "invalid_grant: token revoked" := rfl

/-- C1 amended: whenever the credential phase (token load, refresh,
consent, token write — lines 107-117) completes without raising, every
failure arising in the event-creation phase (network failure, auth
rejection by the API, malformed payload — lines 119-131) is caught and
converted into an error string returned to the caller; but a failure
inside the credential phase itself propagates as an exception. -/
theorem claim_C1_amended (env : CalendarEnv) (h : credPhaseOk env = true) :
    (∃ s, (create_calendar_event env).outcome = Except.ok s) ∧
    ∀ e, env.insertResult = Except.error e →
      (create_calendar_event env).outcome =
        Except.ok ("Error creating event: " ++ e) := by
  obtain ⟨r, c, w, wr, hcrea⟩ := create_eq_insertPhase_of_credPhaseOk env h
  rw [hcrea]
  exact ⟨insertPhase_outcome_ok env r c w wr,
    fun e he => insertPhase_outcome_of_error env r c w wr e he⟩

/-- C1 amended witness: a valid stored credential and a failing insert
call yield the error string as an ordinary return value. -/
theorem claim_C1_amended_witness :
    credPhaseOk
        ⟨true, Except.ok ⟨true, false, false⟩, Except.ok ⟨true, false, false⟩,
         Except.ok ⟨true, false, false⟩,
         Except.error "503 backend unavailable"⟩ = true ∧
    (create_calendar_event
        ⟨true, Except.ok ⟨true, false, false⟩, Except.ok ⟨true, false, false⟩,
         Except.ok ⟨true, false, false⟩,
         Except.error "503 backend unavailable"⟩).outcome =
      Except.ok ("Error creating event: " ++ "503 backend unavailable") :=
  ⟨by decide,
   (claim_C1_amended
       ⟨true, Except.ok ⟨true, false, false⟩, Except.ok ⟨true, false, false⟩,
        Except.ok ⟨true, false, false⟩,
        Except.error "503 backend unavailable"⟩ (by decide)).2
     "503 backend unavailable" rfl⟩

/-- C8: credential handling of create_calendar_event.  First part: a
stored credential that is loaded and valid triggers neither the
interactive consent flow nor a refresh call.  Second part: a stored
credential that is loaded, not valid, expired, and holding a refresh
token leads to exactly one refresh call, after which (when the refresh
succeeds) the refreshed credential is written to token.json exactly
once. -/
theorem claim_C8 :
    (∀ (env : CalendarEnv) (c : Cred), env.tokenFileExists = true →
        env.loadResult = Except.ok c → c.valid = true →
        (create_calendar_event env).consentCalls = 0 ∧
        (create_calendar_event env).refreshCalls = 0) ∧
    (∀ (env : CalendarEnv) (c c2 : Cred), env.tokenFileExists = true →
        env.loadResult = Except.ok c → c.valid = false → c.expired = true →
        c.hasRefreshToken = true → env.refreshResult = Except.ok c2 →
        (create_calendar_event env).refreshCalls = 1 ∧
        (create_calendar_event env).tokenWrites = 1 ∧
        (create_calendar_event env).written = some c2) := by
  constructor
  · intro env c hT hL hv
    have hc : create_calendar_event env = insertPhase env 0 0 0 none := by
      unfold create_calendar_event
      rw [credPhase_of_valid env c hT hL hv]
    rw [hc]
    exact ⟨(insertPhase_counts env 0 0 0 none).2.1,
      (insertPhase_counts env 0 0 0 none).1⟩
  · intro env c c2 hT hL hv hex hrt hrr
    have hc : create_calendar_event env = insertPhase env 1 0 1 (some c2) := by
      unfold create_calendar_event
      rw [credPhase_of_refresh env c c2 hT hL hv hex hrt hrr]
    rw [hc]
    exact ⟨(insertPhase_counts env 1 0 1 (some c2)).1,
      (insertPhase_counts env 1 0 1 (some c2)).2.2.1,
      (insertPhase_counts env 1 0 1 (some c2)).2.2.2⟩

/-- C8 witness: both branches of the credential state machine at
concrete environments. -/
theorem claim_C8_witness :
    ((create_calendar_event
        ⟨true, Except.ok ⟨true, false, false⟩, Except.ok ⟨true, false, false⟩,
         Except.ok ⟨true, false, false⟩, Except.ok "evt2"⟩).consentCalls = 0) ∧
    ((create_calendar_event
        ⟨true, Except.ok ⟨false, true, true⟩, Except.ok ⟨true, false, true⟩,
         Except.ok ⟨true, false, false⟩, Except.ok "evt3"⟩).refreshCalls = 1 ∧
     (create_calendar_event
        ⟨true, Except.ok ⟨false, true, true⟩, Except.ok ⟨true, false, true⟩,
         Except.ok ⟨true, false, false⟩, Except.ok "evt3"⟩).tokenWrites = 1 ∧
     (create_calendar_event
        ⟨true, Except.ok ⟨false, true, true⟩, Except.ok ⟨true, false, true⟩,
         Except.ok ⟨true, false, false⟩, Except.ok "evt3"⟩).written =
       some ⟨true, false, true⟩) :=
  ⟨(claim_C8.1 _ ⟨true, false, false⟩ rfl rfl rfl).1,
   claim_C8.2 _ ⟨false, true, true⟩ ⟨true, false, true⟩ rfl rfl rfl rfl rfl rfl⟩

/-- C10: when token.json exists and the credential loaded from it is
valid, create_calendar_event performs no write to token.json at all;
and in general any call that does write token.json also performed a
refresh or an interactive consent flow. -/
theorem claim_C10 :
    (∀ (env : CalendarEnv) (c : Cred), env.tokenFileExists = true →
        env.loadResult = Except.ok c → c.valid = true →
        (create_calendar_event env).tokenWrites = 0 ∧
        (create_calendar_event env).written = none) ∧
    (∀ env : CalendarEnv, 1 ≤ (create_calendar_event env).tokenWrites →
        1 ≤ (create_calendar_event env).refreshCalls +
              (create_calendar_event env).consentCalls) := by
  constructor
  · intro env c hT hL hv
    have hc : create_calendar_event env = insertPhase env 0 0 0 none := by
      unfold create_calendar_event
      rw [credPhase_of_valid env c hT hL hv]
    rw [hc]
    exact ⟨(insertPhase_counts env 0 0 0 none).2.2.1,
      (insertPhase_counts env 0 0 0 none).2.2.2⟩
  · intro env h
    rcases env with ⟨tf, lr, rr, cr, ir⟩
    cases tf
    · cases cr <;> cases ir <;>
        simp_all [create_calendar_event, credPhase, insertPhase]
    · rcases lr with e | c
      · simp_all [create_calendar_event, credPhase, insertPhase]
      · rcases c with ⟨v, ex, rt⟩
        cases v <;> cases ex <;> cases rt <;> cases rr <;> cases cr <;>
          cases ir <;>
          simp_all [create_calendar_event, credPhase, insertPhase]

/-- C10 witness: a valid stored credential leaves token.json unwritten;
a consent-flow run both writes and performed a consent. -/
theorem claim_C10_witness :
    (create_calendar_event
        ⟨true, Except.ok ⟨true, false, false⟩, Except.ok ⟨true, false, false⟩,
         Except.ok ⟨true, false, false⟩, Except.ok "evt4"⟩).tokenWrites = 0 ∧
    1 ≤ (create_calendar_event
          ⟨false, Except.ok ⟨true, false, false⟩, Except.ok ⟨true, false, false⟩,
           Except.ok ⟨true, false, false⟩, Except.ok "evt5"⟩).refreshCalls +
        (create_calendar_event
          ⟨false, Except.ok ⟨true, false, false⟩, Except.ok ⟨true, false, false⟩,
           Except.ok ⟨true, false, false⟩, Except.ok "evt5"⟩).consentCalls :=
  ⟨(claim_C10.1 _ ⟨true, false, false⟩ rfl rfl rfl).1,
   claim_C10.2 _ (by decide)⟩

end TravelAssistant
